import Mathlib

/-!
Verification of the opportunity-discovery pipeline of the BSC multi-asset
flash-loan arbitrage bot (path generator, price fetcher/cache, opportunity
scanner, orchestrator scan loop, execution safety gate).

The JavaScript sources are shallowly embedded: pure functions become Lean
functions over `ℚ` (the source uses arbitrary-precision BigNumber decimals),
the mutable quote cache becomes explicit state passing, fallible venue calls
become `Option`-returning oracles, and the orchestrator's `while` loop becomes
a recursion over the list of per-cycle outcomes.
-/

namespace ArbBot

/-- Trading assets of `TOKEN_ADDRESSES` (tokenConfig.js), at symbol level. -/
inductive Token
  | WBNB | BTCB | ETH | USDT | USDC | CAKE
deriving DecidableEq, Repr, Inhabited

/-- Venues of `DEX_CONFIGS` (dexConfig.js). -/
inductive Dex
  | PANCAKESWAP_V2 | PANCAKESWAP_V3 | BISWAP | MDEX | UNISWAP_V3 | APESWAP
deriving DecidableEq, Repr, Inhabited

/-- Key order of `TOKEN_ADDRESSES`, used by `Object.keys` in the generator
(`flashLoanAssets`) and the bot. -/
def flashLoanAssets : List Token :=
  [.WBNB, .BTCB, .ETH, .USDT, .USDC, .CAKE]

/-- Key order of `DEX_CONFIGS` (`this.dexNames = Object.keys(dexConfigs)`). -/
def dexNames : List Dex :=
  [.PANCAKESWAP_V2, .PANCAKESWAP_V3, .BISWAP, .MDEX, .UNISWAP_V3, .APESWAP]

/-- The `TRADING_PAIRS` table of tokenConfig.js. -/
def TRADING_PAIRS : Token → List Token
  | .WBNB => [.USDT, .USDC, .BTCB, .ETH, .CAKE]
  | .BTCB => [.WBNB, .USDT, .USDC, .ETH]
  | .ETH  => [.WBNB, .USDT, .USDC, .BTCB]
  | .USDT => [.WBNB, .BTCB, .ETH, .USDC, .CAKE]
  | .USDC => [.WBNB, .BTCB, .ETH, .USDT, .CAKE]
  | .CAKE => [.WBNB, .USDT, .USDC]

/-- The venue kind dispatch of `DEX_CONFIGS[dex].type === 'UniswapV3'`
(pathGenerator.js `calculatePathComplexity`). -/
def isUniswapV3Type : Dex → Bool
  | .PANCAKESWAP_V3 => true
  | .UNISWAP_V3 => true
  | _ => false

/-- The scanner's V3 test `dex.includes('V3') || dex.includes('UNISWAP_V3')`
(arbitrageScanner.js `estimateGasCost`); on the six venue identifiers this is
the same predicate as the config-type dispatch. -/
def isV3Name : Dex → Bool
  | .PANCAKESWAP_V3 => true
  | .UNISWAP_V3 => true
  | _ => false

/-- A `CircularPath` record as built by pathGenerator.js
`generateDexCombinationsForPath` (the derived `id`, `swaps` and `dexConfig`
display fields are omitted; no claim reads them). `liquidityScore` is an
integer in the source (sums/differences of integer constants, floored at 0). -/
structure Path where
  tokens : List Token
  dexes : List Dex
  hops : ℕ
  flashLoanAsset : Token
  isCircular : Bool
  estimatedComplexity : ℕ
  liquidityScore : ℤ
deriving DecidableEq, Repr

/-! ### Path generator (pathGenerator.js) -/

/-- The bounds `this.minHops = 2` and `this.maxHops = 10`. -/
def minHops : ℕ := 2

def maxHops : ℕ := 10

/-- The `calculateLiquidityScore(tokenPath, flashLoanAsset)` scoring. -/
def calculateLiquidityScore (tokenPath : List Token) (flashLoanAsset : Token) : ℤ :=
  let highLiquidityTokens : List Token := [.WBNB, .USDT, .USDC, .BTCB, .ETH]
  let mediumLiquidityTokens : List Token := [.CAKE]
  let base : ℤ := (tokenPath.map (fun t =>
    if highLiquidityTokens.contains t then (10 : ℤ)
    else if mediumLiquidityTokens.contains t then 5 else 1)).sum
  let s1 := base + (if highLiquidityTokens.contains flashLoanAsset then 25 else 0)
  let s2 := s1 + (if tokenPath.contains .WBNB then 20 else 0)
  let stablecoins : List Token := [.USDT, .USDC]
  let stablecoinCount := (tokenPath.filter (fun t => stablecoins.contains t)).length
  let s3 := s2 + (if 2 ≤ stablecoinCount then 15 else 0)
  let s4 := s3 - (if 6 < tokenPath.length then ((tokenPath.length : ℤ) - 6) * 5 else 0)
  max s4 0

/-- The `calculatePathComplexity(tokenPath, dexCombination)` scoring. -/
def calculatePathComplexity (tokenPath : List Token) (dexCombination : List Dex) : ℕ :=
  (tokenPath.length - 1) * 10 + dexCombination.dedup.length * 5 +
    (dexCombination.filter isUniswapV3Type).length * 15

/-- Indexing `this.dexNames[(i + j) % this.dexNames.length]`. -/
def dexAt (k : ℕ) : Dex := dexNames.getD (k % dexNames.length) .PANCAKESWAP_V2

/-- The `generateStrategicDexCombinations(swapCount)` four strategies:
rotations of the full venue list, rotations of the high-liquidity subset,
alternating V2/V3, and the two single-venue baselines. -/
def generateStrategicDexCombinations (swapCount : ℕ) : List (List Dex) :=
  let s1 :=
    if swapCount ≤ dexNames.length then
      (List.range (dexNames.length - swapCount + 1)).map (fun i =>
        (List.range swapCount).map (fun j => dexAt (i + j)))
    else []
  let highLiquidityDexes : List Dex := [.PANCAKESWAP_V2, .PANCAKESWAP_V3, .BISWAP]
  let s2 := (List.range (min 3 swapCount)).map (fun i =>
    (List.range swapCount).map (fun j =>
      highLiquidityDexes.getD ((i + j) % highLiquidityDexes.length) .PANCAKESWAP_V2))
  let v2Dexes : List Dex := [.PANCAKESWAP_V2, .BISWAP, .MDEX, .APESWAP]
  let v3Dexes : List Dex := [.PANCAKESWAP_V3, .UNISWAP_V3]
  let s3 :=
    if 2 ≤ swapCount then
      (List.range (min 2 (swapCount - 1))).map (fun i =>
        (List.range swapCount).map (fun j =>
          if j % 2 = 0 then v2Dexes.getD (i % v2Dexes.length) .PANCAKESWAP_V2
          else v3Dexes.getD (i % v3Dexes.length) .PANCAKESWAP_V3))
    else []
  let s4 := [List.replicate swapCount Dex.PANCAKESWAP_V2,
             List.replicate swapCount Dex.PANCAKESWAP_V3]
  s1 ++ s2 ++ s3 ++ s4

/-- The `isPairLikelyToExist(tokenIn, tokenOut, dex)` heuristic: membership of
the pair in `TRADING_PAIRS` (the venue argument is unused in the source). -/
def isPairLikelyToExist (tokenIn tokenOut : Token) (_dex : Dex) : Bool :=
  (TRADING_PAIRS tokenIn).contains tokenOut

/-- The `validateDexCombination(tokenPath, dexCombination)` loop over swap
indices; an out-of-range token index in the source yields an `undefined`
lookup whose `TRADING_PAIRS` entry is empty, hence `false`, matching the
`none` branches here. -/
def validateDexCombination (tokenPath : List Token) (dexCombination : List Dex) : Bool :=
  (List.range dexCombination.length).all (fun i =>
    match tokenPath.get? i, tokenPath.get? (i + 1), dexCombination.get? i with
    | some a, some b, some d => isPairLikelyToExist a b d
    | _, _, _ => false)

/-- The `generateDexCombinationsForPath(tokenPath, flashLoanAsset)` step:
one candidate `CircularPath` per validated strategic venue combination. -/
def generateDexCombinationsForPath (tokenPath : List Token) (flashLoanAsset : Token) :
    List Path :=
  let swapCount := tokenPath.length - 1
  if tokenPath.head? ≠ tokenPath.getLast? then []
  else
    (generateStrategicDexCombinations swapCount).filterMap (fun combo =>
      if validateDexCombination tokenPath combo then
        some { tokens := tokenPath
               dexes := combo
               hops := swapCount
               flashLoanAsset := flashLoanAsset
               isCircular := true
               estimatedComplexity := calculatePathComplexity tokenPath combo
               liquidityScore := calculateLiquidityScore tokenPath flashLoanAsset }
      else none)

/-- The `dfsCircularPath` depth-first search, recursing on the number of hops
still to make (`targetHops - currentHops`); it returns the completed circular
token paths. The source's guard `currentHops < targetHops - 1` is `1 ≤ r`
here. -/
def dfsCircularPath (startAsset currentAsset : Token) (currentPath : List Token)
    (visited : List Token) (remaining : ℕ) (availableTokens : List Token) :
    List (List Token) :=
  match remaining with
  | 0 =>
    if (TRADING_PAIRS currentAsset).contains startAsset then
      [currentPath ++ [startAsset]]
    else []
  | r + 1 =>
    (TRADING_PAIRS currentAsset).flatMap (fun nextAsset =>
      if nextAsset = startAsset ∧ 1 ≤ r then []
      else if visited.contains nextAsset then []
      else if 1 ≤ r ∧ ¬ availableTokens.contains nextAsset ∧ nextAsset ≠ startAsset then []
      else
        dfsCircularPath startAsset nextAsset (currentPath ++ [nextAsset])
          (nextAsset :: visited) r availableTokens)

/-- The `generateCircularPathsWithHops(startAsset, hopCount, availableTokens)`
entry into the search. -/
def generateCircularPathsWithHops (startAsset : Token) (hopCount : ℕ)
    (availableTokens : List Token) : List (List Token) :=
  dfsCircularPath startAsset startAsset [startAsset] [] hopCount availableTokens

/-- The `generateCircularPathsFromAsset(startAsset)` loop over hop counts 2..10,
feeding each completed token path to the venue-combination step. -/
def generateCircularPathsFromAsset (startAsset : Token) : List Path :=
  let otherTokens := flashLoanAssets.filter (fun t => t ≠ startAsset)
  (List.range' minHops (maxHops - minHops + 1)).flatMap (fun hopCount =>
    (generateCircularPathsWithHops startAsset hopCount otherTokens).flatMap
      (fun tokenPath => generateDexCombinationsForPath tokenPath startAsset))

/-- Duplicate-removal key: the source keys on
`tokens.join('-') + ':' + dexes.join('-')`; on the fixed symbol alphabet
(no `-` or `:` inside a symbol) that string is in bijection with the
(token sequence, venue sequence) pair used here. -/
def pathKey (p : Path) : List Token × List Dex := (p.tokens, p.dexes)

/-- The `removeDuplicatePaths` seen-set filter, keeping first occurrences
(`seen.has(key)` is membership of the key in the set of keys seen so far). -/
def removeDuplicatePathsAux (seen : List (List Token × List Dex)) :
    List Path → List Path
  | [] => []
  | p :: rest =>
    if pathKey p ∈ seen then removeDuplicatePathsAux seen rest
    else p :: removeDuplicatePathsAux (pathKey p :: seen) rest

def removeDuplicatePaths (paths : List Path) : List Path :=
  removeDuplicatePathsAux [] paths

/-- The quality filter of `filterAndOptimizePaths`: circular (re-checked on the
endpoints), hop count within 2..10, liquidity score at least 15, at least two
distinct venues unless the path has at most 3 hops, and a recognised flash-loan
asset. -/
def qualityFilter (p : Path) : Bool :=
  p.isCircular && p.tokens.head? == p.tokens.getLast? &&
    minHops ≤ p.hops && p.hops ≤ maxHops &&
    (15 : ℤ) ≤ p.liquidityScore &&
    (2 ≤ p.dexes.dedup.length || p.hops ≤ 3) &&
    flashLoanAssets.contains p.flashLoanAsset

/-- Sort order of `filterAndOptimizePaths`: descending in
`liquidityScore / sqrt(estimatedComplexity)`. For the nonnegative scores and
positive complexities at hand this is equivalent to the square-free integer
comparison used here, which avoids real square roots; claims do not depend on
the order, only on the fact that sorting permutes. -/
def pathOrder (a b : Path) : Bool :=
  b.liquidityScore ^ 2 * (a.estimatedComplexity : ℤ) ≤
    a.liquidityScore ^ 2 * (b.estimatedComplexity : ℤ)

/-- The `balanceFlashLoanAssetDistribution` step: group the (sorted) paths by
flash-loan asset preserving order, and keep at most 200 paths per asset. -/
def balanceFlashLoanAssetDistribution (paths : List Path) : List Path :=
  flashLoanAssets.flatMap (fun asset =>
    (paths.filter (fun p => p.flashLoanAsset == asset)).take 200)

/-- The `filterAndOptimizePaths(paths)` post-processing pipeline. -/
def filterAndOptimizePaths (paths : List Path) : List Path :=
  let uniquePaths := removeDuplicatePaths paths
  let qualityPaths := uniquePaths.filter qualityFilter
  let sortedPaths := qualityPaths.mergeSort pathOrder
  balanceFlashLoanAssetDistribution sortedPaths

/-- The `generateAllPaths()` contract: raw generation for every flash-loan
asset followed by `filterAndOptimizePaths`. -/
def generateAllPaths : List Path :=
  filterAndOptimizePaths (flashLoanAssets.flatMap generateCircularPathsFromAsset)

/-! ### Price fetcher and quote cache (priceFetcher.js `PriceFetcher`) -/

/-- Cache key of `getPrice`, the source string
`dexName-tokenIn-tokenOut-amountIn` (in bijection with this tuple over the
fixed symbol alphabet). Tokens are modelled at symbol level: the source keys
on the on-chain addresses, which `TOKEN_ADDRESSES` maps bijectively from
symbols. -/
structure QuoteKey where
  dex : Dex
  tokenIn : Token
  tokenOut : Token
  amountIn : ℚ
deriving DecidableEq, Repr

/-- The result record built by `getPrice` on a successful venue query. -/
structure QuoteResult where
  dex : Dex
  tokenIn : Token
  tokenOut : Token
  amountIn : ℚ
  amountOut : ℚ
  price : ℚ
  timestamp : ℕ
deriving DecidableEq, Repr

/-- The `priceCache` map: an association list where `set` prepends, so lookup
of the first matching key agrees with the `Map` semantics of the source
(latest write wins). Entries pair the cached result with its write time. -/
abbrev QuoteCache : Type := List (QuoteKey × QuoteResult × ℕ)

/-- Lookup in the cache (`this.priceCache.get(cacheKey)`). -/
def cacheGet (c : QuoteCache) (k : QuoteKey) : Option (QuoteResult × ℕ) :=
  (List.find? (fun e => e.1 = k) c).map (fun e => e.2)

/-- Write-through (`this.priceCache.set(cacheKey, ...)`). -/
def cacheSet (c : QuoteCache) (k : QuoteKey) (r : QuoteResult) (t : ℕ) : QuoteCache :=
  (k, r, t) :: c

/-- The `this.cacheTimeout = 5000` TTL in milliseconds. -/
def cacheTimeout : ℕ := 5000

/-- An upstream venue-quoting capability: given the current time and a quote
key, the amount out, or `none` when every route/fee tier fails (the
`getPriceV2`/`getPriceV3` throw paths). Time dependence models prices moving
between calls. -/
abbrev Upstream : Type := ℕ → QuoteKey → Option ℚ

/-- The non-cached branch of `getPrice`: perform the venue call, build the
result record (unit price `amountOut / amountIn`), and cache it. The third
component records that the upstream venue was called. -/
def fetchQuote (upstream : Upstream) (now : ℕ) (c : QuoteCache) (k : QuoteKey) :
    Option QuoteResult × QuoteCache × Bool :=
  match upstream now k with
  | none => (none, c, true)
  | some out =>
    let r : QuoteResult :=
      { dex := k.dex, tokenIn := k.tokenIn, tokenOut := k.tokenOut,
        amountIn := k.amountIn, amountOut := out, price := out / k.amountIn,
        timestamp := now }
    (some r, cacheSet c k r now, true)

/-- The `getPrice(dexName, tokenIn, tokenOut, amountIn)` contract: return the
cached result when one exists and is younger than the TTL, otherwise query the
venue and cache the outcome. A failed venue call returns `none` (`null` in the
source) and leaves the cache unchanged. -/
def getPrice (upstream : Upstream) (now : ℕ) (c : QuoteCache) (k : QuoteKey) :
    Option QuoteResult × QuoteCache × Bool :=
  match cacheGet c k with
  | some (cachedData, cachedAt) =>
    if now - cachedAt < cacheTimeout then (some cachedData, c, false)
    else fetchQuote upstream now c k
  | none => fetchQuote upstream now c k

/-! ### Opportunity scanner (arbitrageScanner.js `ArbitrageScanner`) -/

/-- Scanner parameters set in the constructor. -/
def minProfitThreshold : ℚ := 1/1000

def scannerMaxPriceImpact : ℚ := 2

def scannerGasPriceGwei : ℚ := 5

def scannerPriorityFeeGwei : ℚ := 2

def flashLoanFeeRate : ℚ := 9/10000

/-- One entry of `swapDetails` built in `calculateCircularPathProfit`. -/
structure SwapDetail where
  index : ℕ
  fromToken : Token
  toToken : Token
  dex : Dex
  amountIn : ℚ
  amountOut : ℚ
  price : ℚ
  priceImpact : ℚ
  slippage : ℚ
deriving DecidableEq, Repr

/-- Risk classification labels. -/
inductive RiskLevel
  | LOW | MEDIUM | HIGH
deriving DecidableEq, Repr, Inhabited

/-- The opportunity record of `calculateCircularPathProfit`, extended in
`scanPath` with the cost, confidence and risk fields (which start out zeroed
here, mirroring fields absent before the corresponding assignment in the
source). The wall-clock `timestamp` and the `pathId` string are omitted. -/
structure Opportunity where
  path : List Token
  dexes : List Dex
  flashLoanAsset : Token
  flashLoanAmount : ℚ
  finalAmount : ℚ
  grossProfit : ℚ
  profitPercent : ℚ
  swapDetails : List SwapDetail
  isCircular : Bool
  totalHops : ℕ
  gasCost : ℚ
  flashLoanFee : ℚ
  totalCosts : ℚ
  profitAfterCosts : ℚ
  netROI : ℚ
  confidence : ℚ
  riskLevel : RiskLevel
deriving DecidableEq, Repr

/-- A price oracle standing for the scanner's per-hop quote source — either
`this.priceFetcher.getPrice` or the supplied `currentPrices` snapshot read by
`getPriceFromCache`: amount out and unit price for a (venue, in, out,
amountIn) query, or `none` when no quote exists. -/
structure PriceData where
  amountOut : ℚ
  price : ℚ
deriving DecidableEq, Repr

abbrev PriceOracle : Type := Dex → Token → Token → ℚ → Option PriceData

/-- An impact oracle standing for `this.priceFetcher.calculatePriceImpact`
(only its `priceImpact` percentage field is read by the scanner); `none`
stands for the `null` returned on any error. -/
abbrev ImpactOracle : Type := Dex → Token → Token → ℚ → Option ℚ

/-- The `calculateSlippage(amountIn, amountOut, expectedPrice)` formula:
relative deviation of the realised unit price from the expected one, as an
absolute percentage. -/
def calculateSlippage (amountIn amountOut expectedPrice : ℚ) : ℚ :=
  |(expectedPrice - amountOut / amountIn) / expectedPrice * 100|

/-- The price-impact rejection guard of `calculateCircularPathProfit`:
an available impact figure strictly above the 2% ceiling rejects the path. -/
def impactTooHigh : Option ℚ → Bool
  | none => false
  | some pi => scannerMaxPriceImpact < pi

/-- The per-hop loop of `calculateCircularPathProfit`: walk the venue list,
querying a quote and a price impact for each hop; returns the final amount,
the token reached, and the swap-detail list, or `none` when a hop has no
quote or its impact exceeds the ceiling. Token indices `tokens[i+1]` are
walked as the tail list `restTokens`; exhausting it corresponds to the
`undefined` lookup in the source whose venue query can only fail. -/
def profitLoop (oracle : PriceOracle) (impactOr : ImpactOracle) (i : ℕ)
    (dexes : List Dex) (restTokens : List Token) (currentToken : Token)
    (currentAmount : ℚ) : Option (ℚ × Token × List SwapDetail) :=
  match dexes, restTokens with
  | [], _ => some (currentAmount, currentToken, [])
  | _ :: _, [] => none
  | d :: ds, nextToken :: ts =>
    match oracle d currentToken nextToken currentAmount with
    | none => none
    | some priceData =>
      let impact := impactOr d currentToken nextToken currentAmount
      if impactTooHigh impact then none
      else
        let leg : SwapDetail :=
          { index := i, fromToken := currentToken, toToken := nextToken, dex := d,
            amountIn := currentAmount, amountOut := priceData.amountOut,
            price := priceData.price, priceImpact := impact.getD 0,
            slippage := calculateSlippage currentAmount priceData.amountOut
              priceData.price }
        match profitLoop oracle impactOr (i + 1) ds ts nextToken priceData.amountOut with
        | none => none
        | some (finalAmount, lastToken, legs) =>
          some (finalAmount, lastToken, leg :: legs)

/-- The `calculateOptimalFlashLoanAmount(path)` sizing heuristic. -/
def calculateOptimalFlashLoanAmount (path : Path) : ℚ :=
  let baseAmount : ℚ :=
    match path.flashLoanAsset with
    | .WBNB => 10
    | .USDT => 3000
    | .USDC => 3000
    | .BTCB => 1/10
    | .ETH => 3/2
    | .CAKE => 1000
  let a1 := if path.hops ≤ 3 then baseAmount * 2
            else if 6 ≤ path.hops then baseAmount * (1/2) else baseAmount
  if (50 : ℤ) ≤ path.liquidityScore then a1 * (3/2)
  else if path.liquidityScore < 30 then a1 * (7/10) else a1

/-- The body of `calculateCircularPathProfit(path)` with the flash-loan amount
as an explicit argument (the source computes the amount first and then runs
this walk). -/
def calculateCircularPathProfitWith (oracle : PriceOracle) (impactOr : ImpactOracle)
    (flashLoanAmount : ℚ) (path : Path) : Option Opportunity :=
  match path.tokens with
  | [] => none
  | t0 :: rest =>
    match profitLoop oracle impactOr 0 path.dexes rest t0 flashLoanAmount with
    | none => none
    | some (finalAmount, lastToken, legs) =>
      if lastToken ≠ t0 then none
      else
        let grossProfit := finalAmount - flashLoanAmount
        some { path := path.tokens
               dexes := path.dexes
               flashLoanAsset := t0
               flashLoanAmount := flashLoanAmount
               finalAmount := finalAmount
               grossProfit := grossProfit
               profitPercent := grossProfit / flashLoanAmount * 100
               swapDetails := legs
               isCircular := true
               totalHops := path.hops
               gasCost := 0, flashLoanFee := 0, totalCosts := 0
               profitAfterCosts := 0, netROI := 0
               confidence := 0, riskLevel := .LOW }

/-- The `calculateCircularPathProfit(path)` contract. -/
def calculateCircularPathProfit (oracle : PriceOracle) (impactOr : ImpactOracle)
    (path : Path) : Option Opportunity :=
  calculateCircularPathProfitWith oracle impactOr
    (calculateOptimalFlashLoanAmount path) path

/-- The `estimateGasCost(path)` model: base gas per swap, extra gas beyond
2 hops, flash-loan and circular-validation overheads, extra gas per V3 hop,
all priced at gas price plus priority fee and converted to asset units. -/
def estimateGasCost (path : Path) : ℚ :=
  let baseGasPerSwap : ℕ := 150000
  let additionalGasPerHop : ℕ := 30000
  let flashLoanOverhead : ℕ := 250000
  let circularPathOverhead : ℕ := 50000
  let totalGas := baseGasPerSwap * path.hops + additionalGasPerHop * (path.hops - 2) +
    flashLoanOverhead + circularPathOverhead
  let v3SwapCount := (path.dexes.filter isV3Name).length
  let finalGasEstimate := totalGas + v3SwapCount * 50000
  let gasPrice := scannerGasPriceGwei + scannerPriorityFeeGwei
  (finalGasEstimate : ℚ) * gasPrice * 10 ^ 9 / 10 ^ 18

/-- The itemised output of `calculateTotalCosts(path, flashLoanAmount)`. -/
structure TotalCosts where
  gasCost : ℚ
  flashLoanFee : ℚ
  total : ℚ
deriving DecidableEq, Repr

def calculateTotalCosts (path : Path) (flashLoanAmount : ℚ) : TotalCosts :=
  let gasCost := estimateGasCost path
  let flashLoanFee := flashLoanAmount * flashLoanFeeRate
  { gasCost := gasCost, flashLoanFee := flashLoanFee, total := gasCost + flashLoanFee }

/-- Maximum of a list of percentages, as `Math.max(...)` over the nonempty
swap-detail projections of the source (the scanner only applies it to
opportunities with at least one hop; the empty case, which in JavaScript would
be `-Infinity`, is given the junk value 0). -/
def maxOfD (l : List ℚ) : ℚ :=
  match l with
  | [] => 0
  | x :: xs => xs.foldl max x

/-- The high-liquidity token list of `calculateConfidenceScore`. -/
def confidenceHighLiqTokens : List Token := [.WBNB, .USDT, .USDC]

/-- The two sequential `netROI` deductions of `calculateConfidenceScore`
(both fire when `netROI < 0.5`). -/
def roiPenalty (netROI : ℚ) : ℚ :=
  (if netROI < 1 then 25 else 0) + (if netROI < 1/2 then 35 else 0)

/-- The two sequential slippage deductions of `calculateConfidenceScore`
(both fire when the maximum slippage exceeds 2%). -/
def slippagePenalty (maxSlippage : ℚ) : ℚ :=
  (if 1 < maxSlippage then 20 else 0) + (if 2 < maxSlippage then 30 else 0)

/-- The `calculateConfidenceScore(opportunity)` accumulation, clamped
into [0, 100]. -/
def calculateConfidenceScore (o : Opportunity) : ℚ :=
  let score : ℚ := 100
  let score := score - maxOfD (o.swapDetails.map (fun s => s.priceImpact)) * 8
  let score := score - max 0 ((o.totalHops : ℚ) - 3) * 3
  let score := score - roiPenalty o.netROI
  let score := score + (if o.isCircular then 15 else 0)
  let score := score +
    ((o.path.filter (fun t => confidenceHighLiqTokens.contains t)).length : ℚ) * 3
  let score := score - slippagePenalty (maxOfD (o.swapDetails.map (fun s => s.slippage)))
  max (min score 100) 0

/-- Price-impact bucket of `calculateRiskLevel`. -/
def impactRisk (maxPriceImpact : ℚ) : ℕ :=
  if 3/2 < maxPriceImpact then 3
  else if 1 < maxPriceImpact then 2
  else if 1/2 < maxPriceImpact then 1 else 0

/-- Hop-count bucket of `calculateRiskLevel`. -/
def hopRisk (hopCount : ℕ) : ℕ :=
  if 6 < hopCount then 3 else if 4 < hopCount then 2 else if 3 < hopCount then 1 else 0

/-- Profit-margin bucket of `calculateRiskLevel`. -/
def roiRisk (profitMargin : ℚ) : ℕ :=
  if profitMargin < 3/10 then 3
  else if profitMargin < 1/2 then 2
  else if profitMargin < 1 then 1 else 0

/-- Slippage bucket of `calculateRiskLevel`. -/
def slippageRisk (maxSlippage : ℚ) : ℕ :=
  if 2 < maxSlippage then 2 else if 1 < maxSlippage then 1 else 0

/-- The final threshold classification of `calculateRiskLevel`. -/
def riskClassify (riskScore : ℕ) : RiskLevel :=
  if 6 ≤ riskScore then .HIGH else if 4 ≤ riskScore then .MEDIUM else .LOW

/-- The `calculateRiskLevel(opportunity)` contract: the four independent
bucket contributions are accumulated (the source adds each bucket to
`riskScore` in sequence) and the total is classified. -/
def calculateRiskLevel (o : Opportunity) : RiskLevel :=
  riskClassify
    (impactRisk (maxOfD (o.swapDetails.map (fun s => s.priceImpact))) +
      hopRisk o.totalHops + roiRisk o.netROI +
      slippageRisk (maxOfD (o.swapDetails.map (fun s => s.slippage))))

/-- The `scanPath(path)` contract: circularity guard, profit walk, minimum
gross-profit-percent guard, cost itemisation, net-profit and ROI fields,
confidence and risk assessment, and the final strict `netProfit > 0` filter. -/
def scanPath (oracle : PriceOracle) (impactOr : ImpactOracle) (path : Path) :
    Option Opportunity :=
  if ¬ path.isCircular ∨ path.tokens.head? ≠ path.tokens.getLast? then none
  else
    match calculateCircularPathProfit oracle impactOr path with
    | none => none
    | some opp =>
      if opp.profitPercent < minProfitThreshold then none
      else
        let costs := calculateTotalCosts path opp.flashLoanAmount
        let opp := { opp with
          gasCost := costs.gasCost
          flashLoanFee := costs.flashLoanFee
          totalCosts := costs.total
          profitAfterCosts := opp.grossProfit - costs.total
          netROI := (opp.grossProfit - costs.total) / opp.flashLoanAmount * 100 }
        let opp := { opp with
          confidence := calculateConfidenceScore opp
          riskLevel := calculateRiskLevel opp }
        if 0 < opp.profitAfterCosts then some opp else none

/-! ### Orchestrator scan loop and safety gate (ArbitrageBot) -/

/-- Outcome of one pass of the scan-loop body
(`scanForCircularOpportunities`). -/
inductive CycleOutcome
  | success
  | failure
deriving DecidableEq, Repr

/-- The `maxConsecutiveErrors = 5` threshold of `scanLoop`. -/
def maxConsecutiveErrors : ℕ := 5

/-- The exponential error backoff of `scanLoop`:
`Math.min(1000 * 2 ** consecutiveErrors, 30000)` at the already-incremented
error count. -/
def errorBackoffDelay (consecutiveErrors : ℕ) : ℕ :=
  min (1000 * 2 ^ consecutiveErrors) 30000

/-- The `scanLoop` failure handling, run over a list of per-cycle outcomes:
a successful cycle resets the consecutive-error counter; a failing cycle
increments it, stopping the loop (second component `true`) once the threshold
is reached and otherwise sleeping for the exponential backoff delay. Returns
the emitted backoff delays in order, whether the loop stopped itself, and the
final counter value. The inter-cycle scan delay of the success branch is not
an error backoff and is not recorded. -/
def scanLoopRun (consecutiveErrors : ℕ) :
    List CycleOutcome → List ℕ × Bool × ℕ
  | [] => ([], false, consecutiveErrors)
  | outcome :: rest =>
    match outcome with
    | .success => scanLoopRun 0 rest
    | .failure =>
      let ce := consecutiveErrors + 1
      if maxConsecutiveErrors ≤ ce then ([], true, ce)
      else
        let (delays, stopped, ceFinal) := scanLoopRun ce rest
        (errorBackoffDelay ce :: delays, stopped, ceFinal)

/-- Environment read by `performSafetyChecks`: wallet balance and network gas
price in wei, and the bot configuration (`maxGasPrice` in gwei, parsed to wei
with `parseUnits`; `minProfitPercent`). -/
structure BotEnv where
  balanceWei : ℕ
  gasPriceWei : ℕ
  maxGasPriceGwei : ℕ
  minProfitPercent : ℚ
deriving DecidableEq, Repr

/-- The checks of `performSafetyChecks`, in source order. The third and fourth
together are the claim's structural-circularity check. -/
inductive SafetyCheck
  | balanceCovered
  | gasPriceBelowMax
  | circularStructure
  | assetMatchesEndpoints
  | roiAboveMinimum
deriving DecidableEq, Repr

def safetyCheckOrder : List SafetyCheck :=
  [.balanceCovered, .gasPriceBelowMax, .circularStructure,
   .assetMatchesEndpoints, .roiAboveMinimum]

/-- Truth of each individual check (the negation of the corresponding
rejection condition in the source). -/
def checkPasses (env : BotEnv) (o : Opportunity) : SafetyCheck → Bool
  | .balanceCovered => ¬ env.balanceWei < 5 * 10 ^ 15
  | .gasPriceBelowMax => ¬ env.maxGasPriceGwei * 10 ^ 9 < env.gasPriceWei
  | .circularStructure => o.isCircular
  | .assetMatchesEndpoints =>
    o.path.head? == some o.flashLoanAsset && o.path.getLast? == some o.flashLoanAsset
  | .roiAboveMinimum => ¬ o.netROI < env.minProfitPercent

/-- The `performSafetyChecks(opportunity)` gate, returning its verdict and the
list of checks it evaluated, in order; the source's sequential early returns
make the first failing check the last one evaluated. The source function
mutates no state (it only reads the provider and logs), which the pure type
here reflects. -/
def performSafetyChecks (env : BotEnv) (o : Opportunity) : Bool × List SafetyCheck :=
  if env.balanceWei < 5 * 10 ^ 15 then
    (false, [.balanceCovered])
  else if env.maxGasPriceGwei * 10 ^ 9 < env.gasPriceWei then
    (false, [.balanceCovered, .gasPriceBelowMax])
  else if ¬ o.isCircular then
    (false, [.balanceCovered, .gasPriceBelowMax, .circularStructure])
  else if ¬ (o.path.head? == some o.flashLoanAsset &&
      o.path.getLast? == some o.flashLoanAsset) then
    (false, [.balanceCovered, .gasPriceBelowMax, .circularStructure,
             .assetMatchesEndpoints])
  else if o.netROI < env.minProfitPercent then
    (false, safetyCheckOrder)
  else
    (true, safetyCheckOrder)

/-- Generic short-circuit evaluation of a list of checks in order: evaluates
until the first failure; the result is `true` exactly when every check
passes. -/
def runChecks (f : SafetyCheck → Bool) : List SafetyCheck → Bool × List SafetyCheck
  | [] => (true, [])
  | c :: cs =>
    if f c then ((runChecks f cs).1, c :: (runChecks f cs).2)
    else (false, [c])

/-! ### Concrete data for witnesses and counterexamples -/

/-- The WBNB → USDT → BTCB → WBNB path of the spec's profit scenario, with the
liquidity and complexity scores the generator assigns to these tokens/venues
(all three venues are constant-product, so no V3 gas surcharge applies). -/
def wbnbTriPath : Path :=
  { tokens := [.WBNB, .USDT, .BTCB, .WBNB]
    dexes := [.PANCAKESWAP_V2, .BISWAP, .MDEX]
    hops := 3
    flashLoanAsset := .WBNB
    isCircular := true
    estimatedComplexity := 45
    liquidityScore := 85 }

/-- Ignore price impact: the fetcher's `calculatePriceImpact` returning `null`
for every hop. -/
def noImpact : ImpactOracle := fun _ _ _ _ => none

/-- Quotes of the spec scenario at flash-loan amount 10 WBNB:
10 WBNB → 3000 USDT → 0.0645 BTCB → 10.05 WBNB (unit prices are the
out/in ratios, as built by the fetcher). -/
def scenarioOracle : PriceOracle := fun _ tokenIn tokenOut amountIn =>
  if tokenIn = .WBNB ∧ tokenOut = .USDT ∧ amountIn = 10 then
    some { amountOut := 3000, price := 300 }
  else if tokenIn = .USDT ∧ tokenOut = .BTCB ∧ amountIn = 3000 then
    some { amountOut := 129/2000, price := 43/2000000 }
  else if tokenIn = .BTCB ∧ tokenOut = .WBNB ∧ amountIn = 129/2000 then
    some { amountOut := 201/20, price := 6700/43 }
  else none

/-- Profitable quotes for the same path at the scanner's own sizing
(`calculateOptimalFlashLoanAmount wbnbTriPath = 30`):
30 WBNB → 9000 USDT → 0.2 BTCB → 31 WBNB. -/
def exOracle : PriceOracle := fun _ tokenIn tokenOut amountIn =>
  if tokenIn = .WBNB ∧ tokenOut = .USDT ∧ amountIn = 30 then
    some { amountOut := 9000, price := 300 }
  else if tokenIn = .USDT ∧ tokenOut = .BTCB ∧ amountIn = 9000 then
    some { amountOut := 1/5, price := 1/45000 }
  else if tokenIn = .BTCB ∧ tokenOut = .WBNB ∧ amountIn = 1/5 then
    some { amountOut := 31, price := 155 }
  else none

/-- An opportunity with zero price impact, 3 hops, `netROI = 0`, no
high-liquidity token in the path, and 3% slippage on its single recorded leg:
on it the source's cumulative penalties (25 + 35 for ROI, 20 + 30 for
slippage) differ from the claim's 35 and 30. -/
def confCexOpp : Opportunity :=
  { path := [.BTCB, .ETH, .CAKE, .BTCB]
    dexes := [.PANCAKESWAP_V2, .BISWAP, .MDEX]
    flashLoanAsset := .BTCB
    flashLoanAmount := 1
    finalAmount := 1
    grossProfit := 0
    profitPercent := 0
    swapDetails := [{ index := 0, fromToken := .BTCB, toToken := .ETH,
                      dex := .PANCAKESWAP_V2, amountIn := 1, amountOut := 1,
                      price := 1, priceImpact := 0, slippage := 3 }]
    isCircular := true
    totalHops := 3
    gasCost := 0, flashLoanFee := 0, totalCosts := 0
    profitAfterCosts := 0, netROI := 0
    confidence := 0, riskLevel := .LOW }

/-- Quote key used in the cache trace: PancakeSwap V2, 1 WBNB → USDT. -/
def c6Key : QuoteKey :=
  { dex := .PANCAKESWAP_V2, tokenIn := .WBNB, tokenOut := .USDT, amountIn := 1 }

/-- A venue whose quoted output moves at time 5000ms: 300 before, 299 after. -/
def c6Upstream : Upstream := fun t _ => if t < 5000 then some 300 else some 299

/-- The cache produced by an initial fetch of `c6Key` at time 0. -/
def c6State1 : QuoteCache := (getPrice c6Upstream 0 [] c6Key).2.1

/-- A benign environment snapshot for the safety gate: ample balance, 5 gwei
network gas price under a 20 gwei ceiling, 0.5% minimum ROI. -/
def exEnv : BotEnv :=
  { balanceWei := 10 ^ 16, gasPriceWei := 5 * 10 ^ 9, maxGasPriceGwei := 20,
    minProfitPercent := 1/2 }

/-- The quote that fetch cached. -/
def c6Quote : QuoteResult :=
  { dex := .PANCAKESWAP_V2, tokenIn := .WBNB, tokenOut := .USDT,
    amountIn := 1, amountOut := 300, price := 300, timestamp := 0 }

/-- The opportunity `scanPath exOracle noImpact wbnbTriPath` produces. -/
def exOpp : Opportunity :=
  { path := [.WBNB, .USDT, .BTCB, .WBNB]
    dexes := [.PANCAKESWAP_V2, .BISWAP, .MDEX]
    flashLoanAsset := .WBNB
    flashLoanAmount := 30
    finalAmount := 31
    grossProfit := 1
    profitPercent := 10/3
    swapDetails :=
      [{ index := 0, fromToken := .WBNB, toToken := .USDT, dex := .PANCAKESWAP_V2,
         amountIn := 30, amountOut := 9000, price := 300, priceImpact := 0,
         slippage := 0 },
       { index := 1, fromToken := .USDT, toToken := .BTCB, dex := .BISWAP,
         amountIn := 9000, amountOut := 1/5, price := 1/45000, priceImpact := 0,
         slippage := 0 },
       { index := 2, fromToken := .BTCB, toToken := .WBNB, dex := .MDEX,
         amountIn := 1/5, amountOut := 31, price := 155, priceImpact := 0,
         slippage := 0 }]
    isCircular := true
    totalHops := 3
    gasCost := 273/50000
    flashLoanFee := 27/1000
    totalCosts := 1623/50000
    profitAfterCosts := 48377/50000
    netROI := 48377/15000
    confidence := 100
    riskLevel := .LOW }

/-- Reference confidence formula as the claim states it: the two conditional
deductions are exclusive alternatives — 35 in total below 0.5% net ROI, 30 in
total above 2% slippage. -/
def claimConfidenceFormula (o : Opportunity) : ℚ :=
  let maxPI := maxOfD (o.swapDetails.map (fun s => s.priceImpact))
  let maxSlip := maxOfD (o.swapDetails.map (fun s => s.slippage))
  let roiDeduction : ℚ := if o.netROI < 1/2 then 35 else if o.netROI < 1 then 25 else 0
  let slipDeduction : ℚ := if 2 < maxSlip then 30 else if 1 < maxSlip then 20 else 0
  let raw := 100 - 8 * maxPI - 3 * max 0 ((o.totalHops : ℚ) - 3) - roiDeduction +
    (if o.isCircular then 15 else 0) +
    3 * ((o.path.filter (fun t => confidenceHighLiqTokens.contains t)).length : ℚ) -
    slipDeduction
  max (min raw 100) 0

/-- Reference confidence formula as amended to match the source: below 0.5%
net ROI the second deduction of 35 is additional (60 in total), and above 2%
slippage the second deduction of 30 is additional (50 in total). -/
def amendedConfidenceFormula (o : Opportunity) : ℚ :=
  let maxPI := maxOfD (o.swapDetails.map (fun s => s.priceImpact))
  let maxSlip := maxOfD (o.swapDetails.map (fun s => s.slippage))
  let roiDeduction : ℚ := if o.netROI < 1/2 then 60 else if o.netROI < 1 then 25 else 0
  let slipDeduction : ℚ := if 2 < maxSlip then 50 else if 1 < maxSlip then 20 else 0
  let raw := 100 - 8 * maxPI - 3 * max 0 ((o.totalHops : ℚ) - 3) - roiDeduction +
    (if o.isCircular then 15 else 0) +
    3 * ((o.path.filter (fun t => confidenceHighLiqTokens.contains t)).length : ℚ) -
    slipDeduction
  max (min raw 100) 0

/-! ## Theorems

One theorem (plus counterexample/witness where required) per claim of the
specification, with shared helper lemmas in between. -/

/-- Helper: running the scan loop on five leading failures emits exactly the
four backoff delays 2000, 4000, 8000, 16000 ms and then stops, whatever
outcomes would have followed. -/
theorem scanLoopRun_five_failures (rest : List CycleOutcome) :
    scanLoopRun 0 (List.replicate 5 .failure ++ rest) =
      ([2000, 4000, 8000, 16000], true, 5) := by
  simp [scanLoopRun, errorBackoffDelay, maxConsecutiveErrors, List.replicate]

/-- Claim C1 (counterexample): starting from a zero counter, five consecutive
cycle errors produce the backoff delays 2000, 4000, 8000, 16000 ms — the
delay is computed from the already-incremented counter, and the loop stops on
the fifth error before sleeping — so the delay sequence is not the claimed
1000, 2000, 4000, 8000, 16000 ms. -/
theorem scanLoop_backoff_cex :
    scanLoopRun 0 (List.replicate 5 .failure) = ([2000, 4000, 8000, 16000], true, 5) ∧
    (scanLoopRun 0 (List.replicate 5 .failure)).1 ≠ [1000, 2000, 4000, 8000, 16000] := by
  decide

/-- Claim C1 (amended): with threshold 5 and base backoff 1000 ms, any run of
at least five consecutive cycle errors from a zero counter produces the
backoff delays 2000, 4000, 8000, 16000 ms (each `min (1000·2^k) 30000` at the
incremented error count `k`), and the loop transitions to Stopped on the
fifth consecutive error without a further delay; a successful cycle resets
the counter to zero. -/
theorem scanLoop_backoff (n : ℕ) (h : 5 ≤ n) :
    scanLoopRun 0 (List.replicate n .failure) = ([2000, 4000, 8000, 16000], true, 5) ∧
    (∀ (ce : ℕ) (rest : List CycleOutcome),
      scanLoopRun ce (.success :: rest) = scanLoopRun 0 rest) := by
  constructor
  · obtain ⟨m, rfl⟩ := Nat.exists_eq_add_of_le h
    rw [List.replicate_add]
    exact scanLoopRun_five_failures _
  · intro ce rest
    rfl

/-- Witness for the amended C1 at the spec's 11-error scenario. -/
theorem scanLoop_backoff_witness :
    (5 : ℕ) ≤ 11 ∧
    scanLoopRun 0 (List.replicate 11 .failure) = ([2000, 4000, 8000, 16000], true, 5) :=
  ⟨by norm_num, (scanLoop_backoff 11 (by norm_num)).1⟩

/-- Claim C4 (counterexample): for the all-constant-product 3-hop scenario
path, the scanner's gas estimate is exactly 0.00546 WBNB (780000 gas at
7 gwei), which is not ≈ 0.003 WBNB even at a generous half-unit-in-last-place
tolerance; consequently the claimed net profit ≈ 0.038 also fails. -/
theorem scenario_costs_cex :
    estimateGasCost wbnbTriPath = 273/50000 ∧
    ¬ |estimateGasCost wbnbTriPath - 3/1000| < 1/2000 ∧
    ¬ |((1/20 : ℚ) - (calculateTotalCosts wbnbTriPath 10).total) - 38/1000| < 1/2000 := by
  refine ⟨?_, ?_, ?_⟩ <;>
    norm_num [estimateGasCost, calculateTotalCosts, wbnbTriPath, scannerGasPriceGwei,
      scannerPriorityFeeGwei, flashLoanFeeRate, isV3Name, List.filter, abs]

/-- Claim C4 (amended): for the 3-hop path WBNB→USDT→BTCB→WBNB with flash-loan
amount 10 WBNB and hop outputs 3000 USDT, 0.0645 BTCB, 10.05 WBNB, the scanner
computes grossProfit = 0.05 WBNB (0.5%), flash-loan fee 0.009 WBNB, gas cost
0.00546 WBNB, netProfit = 0.03554 WBNB and netROI = 0.3554%. -/
theorem scenario_costs :
    (calculateCircularPathProfitWith scenarioOracle noImpact 10 wbnbTriPath).map
      (fun o => (o.grossProfit, o.profitPercent)) = some (1/20, 1/2) ∧
    calculateTotalCosts wbnbTriPath 10 =
      { gasCost := 273/50000, flashLoanFee := 9/1000, total := 723/50000 } ∧
    (1/20 : ℚ) - (calculateTotalCosts wbnbTriPath 10).total = 1777/50000 ∧
    ((1/20 : ℚ) - (calculateTotalCosts wbnbTriPath 10).total) / 10 * 100 = 1777/5000 := by
  refine ⟨?_, ?_, ?_, ?_⟩ <;>
    norm_num [calculateCircularPathProfitWith, profitLoop, scenarioOracle, noImpact,
      impactTooHigh, calculateSlippage, calculateTotalCosts, estimateGasCost,
      wbnbTriPath, scannerGasPriceGwei, scannerPriorityFeeGwei, flashLoanFeeRate,
      scannerMaxPriceImpact, isV3Name, List.filter]

/-- Helper: a `getPrice` call that reports an upstream fetch with a successful
result has cached that result at the call time, at the head of the returned
cache, and its fields satisfy the fetcher's construction. -/
theorem getPrice_fetch_shape (u : Upstream) (t : ℕ) (c : QuoteCache) (k : QuoteKey)
    (r : QuoteResult) (c' : QuoteCache)
    (h : getPrice u t c k = (some r, c', true)) :
    c' = (k, r, t) :: c ∧ r.amountIn = k.amountIn ∧
      r.price = r.amountOut / r.amountIn ∧ r.timestamp = t := by
  have key : ∀ (h' : fetchQuote u t c k = (some r, c', true)),
      c' = (k, r, t) :: c ∧ r.amountIn = k.amountIn ∧
        r.price = r.amountOut / r.amountIn ∧ r.timestamp = t := by
    intro h'
    unfold fetchQuote at h'
    rcases hu : u t k with _ | out
    · rw [hu] at h'
      simp at h'
    · rw [hu] at h'
      simp only [cacheSet, Prod.mk.injEq, Option.some.injEq] at h'
      obtain ⟨hr, hc, -⟩ := h'
      subst hr
      exact ⟨hc.symm, rfl, rfl, rfl⟩
  unfold getPrice at h
  split at h
  · split at h
    · simp at h
    · exact key h
  · exact key h

/-- Claim C6 (counterexample): the TTL window runs from the time the quote was
cached, not from the previous request. After a fetch at time 0, a request at
4999 ms succeeds from the cache, and a second request only 2 ms later (at
5001 ms, within the 5000 ms TTL of the first request) nevertheless performs an
upstream venue call and returns a different quote. -/
theorem cache_ttl_cex :
    (getPrice c6Upstream 4999 c6State1 c6Key).1 = some c6Quote ∧
    5001 - 4999 < cacheTimeout ∧
    (getPrice c6Upstream 5001 c6State1 c6Key).2.2 = true ∧
    (getPrice c6Upstream 5001 c6State1 c6Key).1 ≠ some c6Quote := by
  refine ⟨?_, ?_, ?_, ?_⟩ <;>
    norm_num [getPrice, fetchQuote, cacheGet, cacheSet, c6Upstream, c6State1, c6Key,
      c6Quote, cacheTimeout, List.find?, QuoteResult.mk.injEq]

/-- Claim C6 (amended): if a quote for a key is fetched upstream (and thereby
cached) at time `t1`, then any request for the same key within the cache TTL
of `t1` performs no upstream venue call, leaves the cache unchanged, and
returns a quote equal to the first. -/
theorem cache_hit_within_ttl (u : Upstream) (t1 t2 : ℕ) (c c' : QuoteCache)
    (k : QuoteKey) (r : QuoteResult)
    (hfetch : getPrice u t1 c k = (some r, c', true))
    (h2 : t2 - t1 < cacheTimeout) :
    getPrice u t2 c' k = (some r, c', false) := by
  obtain ⟨hc, -, -, -⟩ := getPrice_fetch_shape u t1 c k r c' hfetch
  subst hc
  simp [getPrice, cacheGet, List.find?, h2]

/-- Witness for the amended C6: a fetch at time 0 followed by a request at
4999 ms. -/
theorem cache_hit_within_ttl_witness :
    getPrice c6Upstream 4999 c6State1 c6Key = (some c6Quote, c6State1, false) :=
  cache_hit_within_ttl c6Upstream 0 4999 [] c6State1 c6Key c6Quote
    (by norm_num [getPrice, fetchQuote, cacheGet, cacheSet, c6Upstream, c6State1,
      c6Key, c6Quote, cacheTimeout, List.find?])
    (by norm_num [cacheTimeout])

/-- Helper: the fold underlying `maxOfD` on an all-zero list of percentages. -/
theorem foldl_max_zero (xs : List ℚ) (h : ∀ q ∈ xs, q = 0) :
    xs.foldl max 0 = 0 := by
  induction xs with
  | nil => rfl
  | cons x xs ih =>
    have hx : x = 0 := h x (List.mem_cons_self x xs)
    have hxs : ∀ q ∈ xs, q = 0 := fun q hq => h q (List.mem_cons_of_mem x hq)
    simp [List.foldl, hx, ih hxs]

/-- Helper: `maxOfD` of a nonempty all-zero list is zero. -/
theorem maxOfD_eq_zero (l : List ℚ) (hne : l ≠ []) (h : ∀ q ∈ l, q = 0) :
    maxOfD l = 0 := by
  match l, hne with
  | x :: xs, _ =>
    have hx : x = 0 := h x (List.mem_cons_self x xs)
    have hxs : ∀ q ∈ xs, q = 0 := fun q hq => h q (List.mem_cons_of_mem x hq)
    show xs.foldl max x = 0
    rw [hx]
    exact foldl_max_zero xs hxs

/-- Claim C10: a swap leg built from a freshly fetched quote has slippage
exactly zero — the fetcher defines the unit price as `amountOut / amountIn`
of the very quantities the slippage formula compares it against — and a zero
maximum slippage contributes nothing to the confidence penalty or to the
slippage risk bucket. -/
theorem fresh_quote_slippage_zero :
    (∀ amountIn amountOut : ℚ, 0 < amountIn → 0 < amountOut →
      calculateSlippage amountIn amountOut (amountOut / amountIn) = 0) ∧
    (∀ (u : Upstream) (t : ℕ) (c : QuoteCache) (k : QuoteKey) (r : QuoteResult)
      (c' : QuoteCache), getPrice u t c k = (some r, c', true) →
        r.price = r.amountOut / r.amountIn) ∧
    slippagePenalty 0 = 0 ∧ slippageRisk 0 = 0 ∧
    (∀ legs : List SwapDetail, legs ≠ [] → (∀ s ∈ legs, s.slippage = 0) →
      maxOfD (legs.map (fun s => s.slippage)) = 0) := by
  refine ⟨?_, ?_, ?_, ?_, ?_⟩
  · intro amountIn amountOut _ _
    simp [calculateSlippage]
  · intro u t c k r c' h
    exact (getPrice_fetch_shape u t c k r c' h).2.2.1
  · norm_num [slippagePenalty]
  · norm_num [slippageRisk]
  · intro legs hne h
    refine maxOfD_eq_zero _ (by simpa using hne) ?_
    intro q hq
    obtain ⟨s, hs, rfl⟩ := List.mem_map.1 hq
    exact h s hs

/-- Witness for C10 at the concrete fresh quote 2 → 3. -/
theorem fresh_quote_slippage_zero_witness :
    (0 : ℚ) < 2 ∧ (0 : ℚ) < 3 ∧ calculateSlippage 2 3 (3 / 2) = 0 :=
  ⟨by norm_num, by norm_num,
    fresh_quote_slippage_zero.1 2 3 (by norm_num) (by norm_num)⟩

/-- Claim C2 (counterexample): on a concrete opportunity with `netROI = 0` and
maximum slippage 3%, the source applies both ROI deductions (25 + 35) and both
slippage deductions (20 + 30), giving confidence 5, while the claim's
reference formula (35 in total below 0.5% ROI, 30 in total above 2% slippage)
gives 50. -/
theorem confidence_formula_cex :
    calculateConfidenceScore confCexOpp = 5 ∧
    claimConfidenceFormula confCexOpp = 50 ∧
    calculateConfidenceScore confCexOpp ≠ claimConfidenceFormula confCexOpp := by
  have h1 : calculateConfidenceScore confCexOpp = 5 := by
    simp [calculateConfidenceScore, confCexOpp, maxOfD, roiPenalty, slippagePenalty,
      confidenceHighLiqTokens, List.filter_cons]
    norm_num
  have h2 : claimConfidenceFormula confCexOpp = 50 := by
    simp [claimConfidenceFormula, confCexOpp, maxOfD, confidenceHighLiqTokens,
      List.filter_cons]
    norm_num
  refine ⟨h1, h2, ?_⟩
  rw [h1, h2]
  norm_num

/-- Claim C2 (amended): the scanner's confidence score equals the reference
formula with cumulative conditional deductions — start at 100; subtract 8 ×
max price impact; subtract 3 × max(0, hops − 3); subtract 25 if netROI < 1 and
an additional 35 (total 60) if netROI < 0.5; add 15 for being circular; add 3
per high-liquidity asset in the path; subtract 20 if the maximum slippage
exceeds 1% and an additional 30 (total 50) if it exceeds 2% — and the result
is always clamped into [0, 100]. -/
theorem confidence_formula (o : Opportunity) :
    calculateConfidenceScore o = amendedConfidenceFormula o ∧
    0 ≤ calculateConfidenceScore o ∧ calculateConfidenceScore o ≤ 100 := by
  refine ⟨?_, ?_, ?_⟩
  · simp only [calculateConfidenceScore, amendedConfidenceFormula, roiPenalty,
      slippagePenalty]
    split_ifs <;>
      first
        | exact congrArg (fun z : ℚ => z ⊓ 100 ⊔ 0) (by ring1)
        | (exfalso; linarith)
  · simp only [calculateConfidenceScore]
    exact le_max_right _ _
  · simp only [calculateConfidenceScore]
    exact max_le (min_le_right _ _) (by norm_num)

/-- Claim C7: the risk level equals the threshold classification of the sum of
the four independent bucket scores, each bucket contributes between 0 and 3
points, the classification is HIGH at total ≥ 6, MEDIUM at ≥ 4, LOW otherwise,
and the result is always one of LOW, MEDIUM, HIGH. -/
theorem risk_level_buckets (o : Opportunity) :
    calculateRiskLevel o =
      riskClassify (impactRisk (maxOfD (o.swapDetails.map (fun s => s.priceImpact))) +
        hopRisk o.totalHops + roiRisk o.netROI +
        slippageRisk (maxOfD (o.swapDetails.map (fun s => s.slippage)))) ∧
    (∀ q : ℚ, impactRisk q ≤ 3) ∧ (∀ n : ℕ, hopRisk n ≤ 3) ∧
    (∀ q : ℚ, roiRisk q ≤ 3) ∧ (∀ q : ℚ, slippageRisk q ≤ 3) ∧
    (∀ n : ℕ, (riskClassify n = .HIGH ↔ 6 ≤ n) ∧
      (riskClassify n = .MEDIUM ↔ 4 ≤ n ∧ n < 6) ∧ (riskClassify n = .LOW ↔ n < 4)) ∧
    (calculateRiskLevel o = .LOW ∨ calculateRiskLevel o = .MEDIUM ∨
      calculateRiskLevel o = .HIGH) := by
  refine ⟨rfl, ?_, ?_, ?_, ?_, ?_, ?_⟩
  · intro q
    unfold impactRisk
    split_ifs <;> norm_num
  · intro n
    unfold hopRisk
    split_ifs <;> norm_num
  · intro q
    unfold roiRisk
    split_ifs <;> norm_num
  · intro q
    unfold slippageRisk
    split_ifs <;> norm_num
  · intro n
    unfold riskClassify
    refine ⟨?_, ?_, ?_⟩ <;> split_ifs <;> simp_all <;> omega
  · unfold calculateRiskLevel riskClassify
    split_ifs <;> simp

/-- Helper: the generic short-circuit runner passes exactly when every check
passes. -/
theorem runChecks_true_iff (f : SafetyCheck → Bool) (cs : List SafetyCheck) :
    (runChecks f cs).1 = true ↔ ∀ c ∈ cs, f c = true := by
  induction cs with
  | nil => simp [runChecks]
  | cons c cs ih =>
    by_cases hc : f c = true
    · simp [runChecks, hc, ih]
    · simp [runChecks, hc]

/-- Claim C8: the execution gate evaluates its checks in the fixed order
balance / gas price / circular structure / flash-loan asset endpoints /
minimum net ROI, the first failing check short-circuiting the rest (the
returned trace is exactly the short-circuit evaluation of `checkPasses` over
`safetyCheckOrder`), and it rejects exactly when some check fails; the gate is
a pure function of the environment snapshot and the opportunity, so rejection
changes no state. -/
theorem safety_gate (env : BotEnv) (o : Opportunity) :
    performSafetyChecks env o = runChecks (checkPasses env o) safetyCheckOrder ∧
    ((performSafetyChecks env o).1 = true ↔
      ∀ c ∈ safetyCheckOrder, checkPasses env o c = true) ∧
    ((performSafetyChecks env o).1 = false ↔
      ∃ c ∈ safetyCheckOrder, checkPasses env o c = false) := by
  have hrun : performSafetyChecks env o = runChecks (checkPasses env o) safetyCheckOrder := by
    simp only [performSafetyChecks, runChecks, safetyCheckOrder, checkPasses,
      decide_eq_true_eq]
    split_ifs <;> simp_all
  refine ⟨hrun, ?_, ?_⟩
  · rw [hrun, runChecks_true_iff]
  · rw [hrun, ← Bool.not_eq_true, runChecks_true_iff]
    simp

/-- Helper: every strategic venue combination for `swapCount` swaps has length
`swapCount`. -/
theorem strategic_combo_length {n : ℕ} {c : List Dex}
    (h : c ∈ generateStrategicDexCombinations n) : c.length = n := by
  simp only [generateStrategicDexCombinations, List.mem_append] at h
  rcases h with ((h | h) | h) | h
  · split at h
    · obtain ⟨i, -, rfl⟩ := List.mem_map.1 h
      simp
    · simp at h
  · obtain ⟨i, -, rfl⟩ := List.mem_map.1 h
    simp
  · split at h
    · obtain ⟨i, -, rfl⟩ := List.mem_map.1 h
      simp
    · simp at h
  · simp only [List.mem_cons, List.not_mem_nil, or_false] at h
    rcases h with rfl | rfl <;> simp

/-- Helper: every path record emitted by the venue-combination step has its
venue-list length equal to its hop count. -/
theorem mem_generateDexCombinations_shape {tp : List Token} {a : Token} {p : Path}
    (h : p ∈ generateDexCombinationsForPath tp a) :
    p.dexes.length = p.hops := by
  unfold generateDexCombinationsForPath at h
  split at h
  · simp at h
  · obtain ⟨combo, hc, he⟩ := List.mem_filterMap.1 h
    split at he
    · obtain rfl := Option.some.inj he
      exact strategic_combo_length hc
    · exact absurd he (by simp)

/-- Helper: every raw generated path has its venue-list length equal to its
hop count. -/
theorem raw_path_dexes_length {p : Path}
    (h : p ∈ flashLoanAssets.flatMap generateCircularPathsFromAsset) :
    p.dexes.length = p.hops := by
  obtain ⟨a, -, hp⟩ := List.mem_flatMap.1 h
  unfold generateCircularPathsFromAsset at hp
  obtain ⟨hc, -, hp⟩ := List.mem_flatMap.1 hp
  obtain ⟨tp, -, hp⟩ := List.mem_flatMap.1 hp
  exact mem_generateDexCombinations_shape hp

/-- Helper: the deduplication step only keeps paths of its input. -/
theorem removeDuplicatePathsAux_subset {seen : List (List Token × List Dex)}
    {l : List Path} {p : Path}
    (h : p ∈ removeDuplicatePathsAux seen l) : p ∈ l := by
  induction l generalizing seen with
  | nil => simpa [removeDuplicatePathsAux] using h
  | cons q l ih =>
    unfold removeDuplicatePathsAux at h
    split at h
    · exact List.mem_cons_of_mem _ (ih h)
    · rcases List.mem_cons.1 h with rfl | h2
      · exact List.mem_cons_self _ _
      · exact List.mem_cons_of_mem _ (ih h2)

/-- Helper: the post-processing pipeline only returns paths of its input, and
each of them passed the quality filter. -/
theorem mem_filterAndOptimize {l : List Path} {p : Path}
    (h : p ∈ filterAndOptimizePaths l) : p ∈ l ∧ qualityFilter p = true := by
  unfold filterAndOptimizePaths balanceFlashLoanAssetDistribution at h
  obtain ⟨a, -, hp⟩ := List.mem_flatMap.1 h
  have hp2 := (List.filter_sublist _).subset (List.take_subset _ _ hp)
  have hp3 := ((List.mergeSort_perm _ pathOrder).mem_iff).1 hp2
  obtain ⟨hmem, hq⟩ := List.mem_filter.1 hp3
  exact ⟨removeDuplicatePathsAux_subset hmem, hq⟩

/-- Claim C5: every path returned by `generateAllPaths` is circular (its first
asset equals its last asset), has a hop count between 2 and 10 inclusive, and
its venue list has exactly `hops` entries. -/
theorem generateAllPaths_wellformed :
    List.Forall (fun p : Path =>
      p.tokens.head? = p.tokens.getLast? ∧ minHops ≤ p.hops ∧ p.hops ≤ maxHops ∧
      p.dexes.length = p.hops) generateAllPaths := by
  rw [List.forall_iff_forall_mem]
  intro p hp
  unfold generateAllPaths at hp
  obtain ⟨hmem, hq⟩ := mem_filterAndOptimize hp
  have hlen := raw_path_dexes_length hmem
  simp only [qualityFilter, Bool.and_eq_true, decide_eq_true_eq, beq_iff_eq] at hq
  exact ⟨hq.1.1.1.1.1.2, hq.1.1.1.1.2, hq.1.1.1.2, hlen⟩

/-- Helper: no path kept by the deduplication pass has a key already seen. -/
theorem removeDuplicatePathsAux_key_notin {seen : List (List Token × List Dex)}
    {l : List Path} {p : Path}
    (h : p ∈ removeDuplicatePathsAux seen l) : pathKey p ∉ seen := by
  induction l generalizing seen with
  | nil => simp [removeDuplicatePathsAux] at h
  | cons q l ih =>
    unfold removeDuplicatePathsAux at h
    split at h
    · exact ih h
    · next hns =>
      rcases List.mem_cons.1 h with rfl | h2
      · exact hns
      · have h3 := ih h2
        exact fun hmem => h3 (List.mem_cons_of_mem _ hmem)

/-- Helper: the deduplication pass yields pairwise distinct
(token sequence, venue sequence) keys. -/
theorem removeDuplicatePathsAux_pairwise (seen : List (List Token × List Dex))
    (l : List Path) :
    (removeDuplicatePathsAux seen l).Pairwise (fun a b => pathKey a ≠ pathKey b) := by
  induction l generalizing seen with
  | nil => exact List.Pairwise.nil
  | cons q l ih =>
    unfold removeDuplicatePathsAux
    split
    · exact ih seen
    · refine List.pairwise_cons.2 ⟨?_, ih _⟩
      intro b hb he
      exact removeDuplicatePathsAux_key_notin hb (he ▸ List.mem_cons_self _ _)

/-- Helper: key distinctness is preserved by the per-asset grouping and
quota-taking of the balancing step, for any duplicate-free asset list. -/
theorem balance_groups_pairwise (l : List Path)
    (h : l.Pairwise (fun a b => pathKey a ≠ pathKey b)) (assets : List Token)
    (hnd : assets.Nodup) :
    (assets.flatMap (fun a => (l.filter (fun p => p.flashLoanAsset == a)).take 200)).Pairwise
      (fun a b => pathKey a ≠ pathKey b) := by
  have hsym : Symmetric (fun a b : Path => pathKey a ≠ pathKey b) :=
    fun a b hab => hab.symm
  induction assets with
  | nil => exact List.Pairwise.nil
  | cons a as ih =>
    rw [List.flatMap_cons]
    have hgroup : ∀ b : Token,
        List.Sublist ((l.filter (fun p => p.flashLoanAsset == b)).take 200) l :=
      fun b => (List.take_sublist _ _).trans (List.filter_sublist _)
    refine List.pairwise_append.2
      ⟨List.Pairwise.sublist (hgroup a) h, ih (List.nodup_cons.1 hnd).2, ?_⟩
    intro x hx y hy
    have hxa : x.flashLoanAsset = a := by
      have := (List.mem_filter.1 (List.take_subset _ _ hx)).2
      simpa using this
    obtain ⟨b, hb, hyb⟩ := List.mem_flatMap.1 hy
    have hyb' : y.flashLoanAsset = b := by
      have := (List.mem_filter.1 (List.take_subset _ _ hyb)).2
      simpa using this
    have hxl : x ∈ l := (hgroup a).subset hx
    have hyl : y ∈ l := (hgroup b).subset hyb
    have hne : x ≠ y := by
      intro he
      subst he
      exact (List.nodup_cons.1 hnd).1 ((hxa ▸ hyb') ▸ hb)
    exact h.forall hsym hxl hyl hne

/-- Claim C9: no two paths retained by `generateAllPaths` share both the same
token sequence and the same venue sequence. -/
theorem generateAllPaths_dedup :
    generateAllPaths.Pairwise (fun a b => a.tokens ≠ b.tokens ∨ a.dexes ≠ b.dexes) := by
  have key : generateAllPaths.Pairwise (fun a b => pathKey a ≠ pathKey b) := by
    unfold generateAllPaths filterAndOptimizePaths balanceFlashLoanAssetDistribution
    refine balance_groups_pairwise _ ?_ _ (by decide)
    have h1 := removeDuplicatePathsAux_pairwise []
      (flashLoanAssets.flatMap generateCircularPathsFromAsset)
    have h2 : ((removeDuplicatePathsAux []
          (flashLoanAssets.flatMap generateCircularPathsFromAsset)).filter
          qualityFilter).Pairwise (fun a b => pathKey a ≠ pathKey b) :=
      List.Pairwise.sublist (List.filter_sublist _) h1
    exact ((List.mergeSort_perm _ pathOrder).pairwise_iff
      (fun hab => hab.symm)).2 h2
  refine key.imp ?_
  intro a b hab
  by_contra hcon
  push_neg at hcon
  exact hab (by simp [pathKey, hcon.1, hcon.2])

/-- Helper: a successful hop walk emits one swap detail per venue, reports the
start state when there are no venues, and otherwise its last emitted leg ends
at the token the walk reports. -/
theorem profitLoop_shape (oracle : PriceOracle) (impactOr : ImpactOracle)
    (dexes : List Dex) :
    ∀ (i : ℕ) (restTokens : List Token) (cur : Token) (amt finalAmt : ℚ)
      (lastTok : Token) (legs : List SwapDetail),
      profitLoop oracle impactOr i dexes restTokens cur amt =
        some (finalAmt, lastTok, legs) →
      legs.length = dexes.length ∧
        (dexes = [] → lastTok = cur ∧ finalAmt = amt ∧ legs = []) ∧
        (dexes ≠ [] → ∃ s, legs.getLast? = some s ∧ s.toToken = lastTok) := by
  induction dexes with
  | nil =>
    intro i rest cur amt f lt legs h
    simp only [profitLoop, Option.some.injEq, Prod.mk.injEq] at h
    obtain ⟨rfl, rfl, rfl⟩ := h
    exact ⟨rfl, fun _ => ⟨rfl, rfl, rfl⟩, fun hne => absurd rfl hne⟩
  | cons d ds ih =>
    intro i rest cur amt f lt legs h
    match rest with
    | [] => simp [profitLoop] at h
    | next :: ts =>
      simp only [profitLoop] at h
      split at h
      · exact absurd h (by simp)
      · split at h
        · exact absurd h (by simp)
        · split at h
          · exact absurd h (by simp)
          next f' lt' legs' hloop =>
            simp only [Option.some.injEq, Prod.mk.injEq] at h
            obtain ⟨rfl, rfl, rfl⟩ := h
            obtain ⟨hlen, hnil, hlast⟩ := ih (i + 1) ts next _ f' lt' legs' hloop
            refine ⟨by simp [hlen], fun hcon => absurd hcon (by simp), fun _ => ?_⟩
            rcases hds2 : ds with _ | ⟨d2, ds2⟩
            · obtain ⟨rfl, -, rfl⟩ := hnil hds2
              exact ⟨_, rfl, rfl⟩
            · obtain ⟨s, hs1, hs2⟩ := hlast (by simp [hds2])
              rcases legs' with _ | ⟨leg2, legs2⟩
              · simp at hs1
              · exact ⟨s, by rw [List.getLast?_cons_cons]; exact hs1, hs2⟩

/-- Claim C3: whenever `scanPath` returns an opportunity (for a path whose
venue list matches its hop count, the generator invariant), the opportunity's
profit after all costs is strictly positive, its swap-leg list has exactly
`path.hops` entries, and the output asset of its last swap leg equals the
opportunity's flash-loan asset, which equals both endpoints of the path's
token sequence. -/
theorem scanPath_postconditions (oracle : PriceOracle) (impactOr : ImpactOracle)
    (p : Path) (opp : Opportunity)
    (hwf : p.dexes.length = p.hops)
    (h : scanPath oracle impactOr p = some opp) :
    0 < opp.profitAfterCosts ∧
    opp.swapDetails.length = p.hops ∧
    (∃ s, opp.swapDetails.getLast? = some s ∧ s.toToken = opp.flashLoanAsset) ∧
    p.tokens.head? = some opp.flashLoanAsset ∧
    p.tokens.getLast? = some opp.flashLoanAsset := by
  simp only [scanPath] at h
  split at h
  · exact absurd h (by simp)
  next hguard =>
  push_neg at hguard
  obtain ⟨-, hends⟩ := hguard
  split at h
  · exact absurd h (by simp)
  next opp0 hcalc =>
  split at h
  · exact absurd h (by simp)
  next hpp =>
  split at h
  case isFalse => exact absurd h (by simp)
  case isTrue hpos =>
  obtain rfl := (Option.some.inj h).symm
  simp only [calculateCircularPathProfit, calculateCircularPathProfitWith] at hcalc
  split at hcalc
  · exact absurd hcalc (by simp)
  next t0 rest hts =>
  split at hcalc
  · exact absurd hcalc (by simp)
  next f lt legs hloop =>
  split at hcalc
  · exact absurd hcalc (by simp)
  next hlt =>
  push_neg at hlt
  obtain rfl := (Option.some.inj hcalc).symm
  obtain ⟨hlen, hnil, hlast⟩ := profitLoop_shape oracle impactOr p.dexes 0 rest t0 _
    f lt legs hloop
  subst hlt
  dsimp only at hpos hpp ⊢
  refine ⟨hpos, by rw [hlen, hwf], ?_, by simp [hts], ?_⟩
  · rcases hds : p.dexes with _ | ⟨d, ds⟩
    · obtain ⟨-, rfl, -⟩ := hnil hds
      exfalso
      apply hpp
      norm_num [minProfitThreshold]
    · exact hlast (by simp [hds])
  · rw [← hends]
    simp [hts]

/-- Witness for C3 at the concrete profitable 3-hop scenario path. -/
theorem scanPath_postconditions_witness :
    wbnbTriPath.dexes.length = wbnbTriPath.hops ∧
    scanPath exOracle noImpact wbnbTriPath = some exOpp ∧
    0 < exOpp.profitAfterCosts ∧
    exOpp.swapDetails.length = wbnbTriPath.hops ∧
    exOpp.swapDetails.getLast?.map (fun s => s.toToken) = some exOpp.flashLoanAsset ∧
    wbnbTriPath.tokens.head? = some exOpp.flashLoanAsset ∧
    wbnbTriPath.tokens.getLast? = some exOpp.flashLoanAsset := by
  have hwf : wbnbTriPath.dexes.length = wbnbTriPath.hops := rfl
  have hscan : scanPath exOracle noImpact wbnbTriPath = some exOpp := by
    simp [scanPath, calculateCircularPathProfit, calculateCircularPathProfitWith,
      calculateOptimalFlashLoanAmount, profitLoop, exOracle, noImpact, impactTooHigh,
      calculateSlippage, wbnbTriPath, scannerMaxPriceImpact, minProfitThreshold,
      calculateTotalCosts, estimateGasCost, scannerGasPriceGwei, scannerPriorityFeeGwei,
      flashLoanFeeRate, isV3Name, List.filter_cons, calculateConfidenceScore, maxOfD,
      roiPenalty, slippagePenalty, confidenceHighLiqTokens, calculateRiskLevel,
      impactRisk, hopRisk, roiRisk, slippageRisk, riskClassify, exOpp]
    norm_num [List.filter_cons]
    simp
    norm_num
  obtain ⟨h1, h2, h3, h4, h5⟩ :=
    scanPath_postconditions exOracle noImpact wbnbTriPath exOpp hwf hscan
  obtain ⟨s, hs1, hs2⟩ := h3
  exact ⟨hwf, hscan, h1, h2, by rw [hs1]; simpa using hs2, h4, h5⟩

/-- Witness for the amended C2 at a concrete opportunity. -/
theorem confidence_formula_witness :
    calculateConfidenceScore exOpp = amendedConfidenceFormula exOpp ∧
    0 ≤ calculateConfidenceScore exOpp ∧ calculateConfidenceScore exOpp ≤ 100 :=
  confidence_formula exOpp

/-- Witness for C7 at a concrete opportunity. -/
theorem risk_level_buckets_witness :
    calculateRiskLevel exOpp = .LOW ∨ calculateRiskLevel exOpp = .MEDIUM ∨
    calculateRiskLevel exOpp = .HIGH :=
  (risk_level_buckets exOpp).2.2.2.2.2.2

/-- Witness for C8 at a concrete environment and opportunity. -/
theorem safety_gate_witness :
    performSafetyChecks exEnv exOpp = runChecks (checkPasses exEnv exOpp) safetyCheckOrder :=
  (safety_gate exEnv exOpp).1

end ArbBot
